import Mathlib

set_option maxRecDepth 4000

/-!
# Verification of the AutoJob dashboard core (src/src/App.tsx)

Shallow embedding of the state and handlers of the single React component
in `src/src/App.tsx`:

* the synthetic job-application generator inside `toggleBot` (the interval
  callback), driven by four uniform draws from `[0,1)` modelled as rationals;
* the manual-response handler `handleManualResponse`;
* the bot scheduler state (`isBotRunning` plus the interval handle
  `botIntervalRef`) with the `toggleBot` transition, logout and unmount
  cleanup;
* the snapshot handlers for the profile document and the applications
  collection (default profile synthesis, date-descending sort);
* the login handler `handleLogin` and the `showLoginScreen` gate.

External collaborators (Firebase auth and Firestore) are abstracted: the
store assigns document ids (passed in as parameters), a write either
succeeds or fails (a `Bool` parameter), `serverTimestamp` is dropped, and
the ISO date string produced by `new Date().toISOString()` is modelled as
a natural number of milliseconds since the epoch (ISO-8601 order on those
strings coincides with numeric order on the instants). A JavaScript
`undefined` field is modelled as `Option.none`. `window.location.reload()`
tears down the whole JavaScript context, which cancels every pending timer.
-/

/-- `ApplicationStatus` from the source: the four-member status enum. -/
inductive ApplicationStatus : Type
  | pending_bot
  | applied
  | needs_input
  | failed
deriving DecidableEq, Repr

/-- The four-member platform enum from the `JobApplication` interface. -/
inductive Platform : Type
  | LinkedIn
  | Glassdoor
  | Gupy
  | Infojobs
deriving DecidableEq, Repr

/-- `JobApplication` from the source. `date` is the creation instant in
milliseconds; optional fields use `Option` (`none` models `undefined`). -/
structure JobApplication : Type where
  id : String
  company : String
  role : String
  platform : Platform
  date : Nat
  status : ApplicationStatus
  notes : Option String
  questionToAnswer : Option String
deriving DecidableEq, Repr

/-- `UserProfile` from the source. -/
structure UserProfile : Type where
  fullName : String
  email : String
  linkedinUrl : String
  bio : String
  experience : String
  skills : String
deriving DecidableEq, Repr

/-- The fixed company pool of the tick generator. -/
def companies : List String :=
  ["TechCorp", "InovaSoft", "DataSystems", "CloudWalk", "BankOne"]

/-- The fixed role pool of the tick generator. -/
def roles : List String :=
  ["Dev Python Jr", "QA Automation", "Frontend React", "Fullstack Engineer", "Data Analyst"]

/-- The platform pool of the tick generator, in source order. -/
def tickPlatforms : List Platform :=
  [Platform.LinkedIn, Platform.Gupy, Platform.Glassdoor, Platform.Infojobs]

/-- The fixed prompt attached to a `needs_input` tick. -/
def tickPrompt : String := "Por que você quer trabalhar nesta empresa?"

/-- The fixed note attached to a `failed` tick. -/
def tickTimeoutNote : String := "Erro de timeout no seletor CSS"

/-- `Math.floor(r * n)` for a draw `r` from `[0,1)`: the index used to pick
from a pool of `n` elements. -/
def randomIndex (n : Nat) (r : ℚ) : Nat := (⌊r * n⌋).toNat

/-- `pool[Math.floor(r * pool.length)]`; the default is never reached for
draws in `[0,1)`. -/
def randomPick {α : Type} (dflt : α) (pool : List α) (r : ℚ) : α :=
  pool.getD (randomIndex pool.length r) dflt

/-- The status branch of the tick callback: threshold comparison of the
draw `rand` against 0.2, 0.3, 0.5, yielding (status, question, notes). -/
def tickStatus (r : ℚ) : ApplicationStatus × Option String × Option String :=
  if r < 2/10 then
    (ApplicationStatus.needs_input, some tickPrompt, none)
  else if r < 3/10 then
    (ApplicationStatus.failed, none, some tickTimeoutNote)
  else if r < 5/10 then
    (ApplicationStatus.pending_bot, none, none)
  else
    (ApplicationStatus.applied, none, none)

/-- The document built by one tick of the interval callback in `toggleBot`,
from the four uniform draws, the current instant and the store-assigned id. -/
def buildTickJob (rc rr rp r : ℚ) (now : Nat) (newId : String) : JobApplication :=
  { id := newId
    company := randomPick "" companies rc
    role := randomPick "" roles rr
    platform := randomPick Platform.LinkedIn tickPlatforms rp
    date := now
    status := (tickStatus r).1
    questionToAnswer := (tickStatus r).2.1
    notes := (tickStatus r).2.2 }

/-- One tick of the interval callback: returns the created document, or
`none` when no identity is established (the `if (!user) return` guard). -/
def simulateBotTick (user : Option String) (rc rr rp r : ℚ) (now : Nat)
    (newId : String) : Option JobApplication :=
  match user with
  | none => none
  | some _ => some (buildTickJob rc rr rp r now newId)

theorem randomIndex_lt (n : Nat) (hn : 0 < n) (r : ℚ) (h0 : 0 ≤ r) (h1 : r < 1) :
    randomIndex n r < n := by
  unfold randomIndex
  have hnq : (0 : ℚ) < (n : ℚ) := by exact_mod_cast hn
  have hfl : (0 : ℤ) ≤ ⌊r * (n : ℚ)⌋ := Int.floor_nonneg.mpr (by positivity)
  have hlt : ⌊r * (n : ℚ)⌋ < (n : ℤ) := by
    apply Int.floor_lt.mpr
    push_cast
    nlinarith
  omega

theorem randomIndex_eq_iff (n : Nat) (hn : 0 < n) (r : ℚ) (h0 : 0 ≤ r) (i : Nat) :
    randomIndex n r = i ↔ ((i : ℚ) / n ≤ r ∧ r < ((i : ℚ) + 1) / n) := by
  unfold randomIndex
  have hnq : (0 : ℚ) < (n : ℚ) := by exact_mod_cast hn
  have hfl : (0 : ℤ) ≤ ⌊r * (n : ℚ)⌋ := Int.floor_nonneg.mpr (by positivity)
  have hstep : (⌊r * (n : ℚ)⌋.toNat = i) ↔ (⌊r * (n : ℚ)⌋ = (i : ℤ)) := by omega
  rw [hstep, Int.floor_eq_iff, div_le_iff₀ hnq, lt_div_iff₀ hnq]
  push_cast
  constructor
  · rintro ⟨a, b⟩
    exact ⟨by linarith, by linarith⟩
  · rintro ⟨a, b⟩
    exact ⟨by linarith, by linarith⟩

/-- C1: during a bot tick with identity present, the created document gets
exactly one of the four statuses according to the fixed thresholds on the
draw `r` from `[0,1)` (below 0.2: `needs_input` with the fixed prompt and no
notes; in `[0.2, 0.3)`: `failed` with the fixed timeout note and no
question; in `[0.3, 0.5)`: `pending_bot` with neither; at or above 0.5:
`applied` with neither), and company, role and platform are picked from the
fixed pools of 5, 5 and 4 members at index `Math.floor(draw * size)`, whose
preimages partition `[0,1)` into equal-length intervals (uniformity). -/
theorem C1_simulateBotTick_thresholds (u : String) (rc rr rp r : ℚ) (now : Nat)
    (newId : String)
    (hc0 : 0 ≤ rc) (hc1 : rc < 1) (hq0 : 0 ≤ rr) (hq1 : rr < 1)
    (hp0 : 0 ≤ rp) (hp1 : rp < 1) (hr0 : 0 ≤ r) (hr1 : r < 1) :
    ∃ job, simulateBotTick (some u) rc rr rp r now newId = some job ∧
      ((r < 2/10 ∧ job.status = ApplicationStatus.needs_input ∧
          job.questionToAnswer = some tickPrompt ∧ job.notes = none) ∨
        (2/10 ≤ r ∧ r < 3/10 ∧ job.status = ApplicationStatus.failed ∧
          job.notes = some tickTimeoutNote ∧ job.questionToAnswer = none) ∨
        (3/10 ≤ r ∧ r < 5/10 ∧ job.status = ApplicationStatus.pending_bot ∧
          job.questionToAnswer = none ∧ job.notes = none) ∨
        (5/10 ≤ r ∧ job.status = ApplicationStatus.applied ∧
          job.questionToAnswer = none ∧ job.notes = none)) ∧
      job.company = companies.getD (randomIndex 5 rc) "" ∧
      job.role = roles.getD (randomIndex 5 rr) "" ∧
      job.platform = tickPlatforms.getD (randomIndex 4 rp) Platform.LinkedIn ∧
      randomIndex 5 rc < 5 ∧ randomIndex 5 rr < 5 ∧ randomIndex 4 rp < 4 ∧
      (∀ i : Nat, randomIndex 5 rc = i ↔ ((i : ℚ) / 5 ≤ rc ∧ rc < ((i : ℚ) + 1) / 5)) ∧
      (∀ i : Nat, randomIndex 5 rr = i ↔ ((i : ℚ) / 5 ≤ rr ∧ rr < ((i : ℚ) + 1) / 5)) ∧
      (∀ i : Nat, randomIndex 4 rp = i ↔ ((i : ℚ) / 4 ≤ rp ∧ rp < ((i : ℚ) + 1) / 4)) := by
  refine ⟨buildTickJob rc rr rp r now newId, rfl, ?_, rfl, rfl, rfl,
    randomIndex_lt 5 (by norm_num) rc hc0 hc1,
    randomIndex_lt 5 (by norm_num) rr hq0 hq1,
    randomIndex_lt 4 (by norm_num) rp hp0 hp1,
    fun i => by exact_mod_cast randomIndex_eq_iff 5 (by norm_num) rc hc0 i,
    fun i => by exact_mod_cast randomIndex_eq_iff 5 (by norm_num) rr hq0 i,
    fun i => by exact_mod_cast randomIndex_eq_iff 4 (by norm_num) rp hp0 i⟩
  simp only [buildTickJob]
  unfold tickStatus
  split_ifs with h1 h2 h3
  · exact Or.inl ⟨by linarith, rfl, rfl, rfl⟩
  · exact Or.inr (Or.inl ⟨by linarith, by linarith, rfl, rfl, rfl⟩)
  · exact Or.inr (Or.inr (Or.inl ⟨by linarith, by linarith, rfl, rfl, rfl⟩))
  · exact Or.inr (Or.inr (Or.inr ⟨by linarith, rfl, rfl, rfl⟩))

theorem C1_simulateBotTick_thresholds_witness :
    ∃ job, simulateBotTick (some "user0") 0 (1/2) (3/4) (1/4) 0 "a1" = some job ∧
      (((1:ℚ)/4 < 2/10 ∧ job.status = ApplicationStatus.needs_input ∧
          job.questionToAnswer = some tickPrompt ∧ job.notes = none) ∨
        ((2:ℚ)/10 ≤ 1/4 ∧ (1:ℚ)/4 < 3/10 ∧ job.status = ApplicationStatus.failed ∧
          job.notes = some tickTimeoutNote ∧ job.questionToAnswer = none) ∨
        ((3:ℚ)/10 ≤ 1/4 ∧ (1:ℚ)/4 < 5/10 ∧ job.status = ApplicationStatus.pending_bot ∧
          job.questionToAnswer = none ∧ job.notes = none) ∨
        ((5:ℚ)/10 ≤ 1/4 ∧ job.status = ApplicationStatus.applied ∧
          job.questionToAnswer = none ∧ job.notes = none)) ∧
      job.company = companies.getD (randomIndex 5 0) "" ∧
      job.role = roles.getD (randomIndex 5 (1/2)) "" ∧
      job.platform = tickPlatforms.getD (randomIndex 4 (3/4)) Platform.LinkedIn ∧
      randomIndex 5 0 < 5 ∧ randomIndex 5 (1/2) < 5 ∧ randomIndex 4 (3/4) < 4 ∧
      (∀ i : Nat, randomIndex 5 0 = i ↔ ((i : ℚ) / 5 ≤ 0 ∧ (0:ℚ) < ((i : ℚ) + 1) / 5)) ∧
      (∀ i : Nat, randomIndex 5 (1/2) = i ↔ ((i : ℚ) / 5 ≤ 1/2 ∧ (1:ℚ)/2 < ((i : ℚ) + 1) / 5)) ∧
      (∀ i : Nat, randomIndex 4 (3/4) = i ↔ ((i : ℚ) / 4 ≤ 3/4 ∧ (3:ℚ)/4 < ((i : ℚ) + 1) / 4)) :=
  C1_simulateBotTick_thresholds "user0" 0 (1/2) (3/4) (1/4) 0 "a1"
    (by norm_num) (by norm_num) (by norm_num) (by norm_num)
    (by norm_num) (by norm_num) (by norm_num) (by norm_num)

/-- The audit note written by `handleManualResponse`: the template literal
`Respondido manualmente: "<responseText.substring(0, 30)>..."` (JavaScript
`substring(0, 30)` keeps at most the first 30 characters; the answers in
scope are ASCII, so characters and UTF-16 code units coincide). -/
def manualResponseNotes (responseText : String) : String :=
  "Respondido manualmente: \"" ++ responseText.take 30 ++ "...\""

/-- The field update `handleManualResponse` applies to the target document:
status to `applied`, questionToAnswer to the empty string, notes to the
audit string. -/
def applyManualResponse (app : JobApplication) (responseText : String) : JobApplication :=
  { app with
      status := ApplicationStatus.applied
      questionToAnswer := some ""
      notes := some (manualResponseNotes responseText) }

/-- A concrete `needs_input` record, as the tick generator creates them. -/
def exampleNeedsInputApp : JobApplication :=
  { id := "abc123"
    company := "TechCorp"
    role := "Dev Python Jr"
    platform := Platform.LinkedIn
    date := 1700000000000
    status := ApplicationStatus.needs_input
    notes := none
    questionToAnswer := some tickPrompt }

/-- C2 counterexample: resolving the example record with the answer
`I love this company because...` does not produce the notes value the
specification predicts. The answer is exactly 30 characters long, so
`substring(0, 30)` keeps it whole and the audit string is
`Respondido manualmente: "I love this company because......"`, not
`Respondido manualmente: "I love this compan..."`. -/
theorem C2_resolve_example_counterexample :
    (applyManualResponse exampleNeedsInputApp "I love this company because...").notes ≠
      some "Respondido manualmente: \"I love this compan...\"" ∧
    (applyManualResponse exampleNeedsInputApp "I love this company because...").notes =
      some "Respondido manualmente: \"I love this company because......\"" := by
  constructor
  · decide
  · decide

/-- C2 (amended): resolving a record currently in `needs_input` with any
answer text transitions it to `applied`, clears `questionToAnswer` (writes
the empty string), and sets `notes` to the audit string made of at most the
first 30 characters of the answer followed by an ellipsis; for the example
answer `I love this company because...` (exactly 30 characters) the audit
string is `Respondido manualmente: "I love this company because......"`. -/
theorem C2_applyManualResponse_resolves (app : JobApplication) (txt : String)
    (h : app.status = ApplicationStatus.needs_input) :
    (applyManualResponse app txt).status = ApplicationStatus.applied ∧
    (applyManualResponse app txt).questionToAnswer = some "" ∧
    (applyManualResponse app txt).notes =
      some ("Respondido manualmente: \"" ++ txt.take 30 ++ "...\"") ∧
    (txt.take 30).length ≤ 30 ∧
    manualResponseNotes "I love this company because..." =
      "Respondido manualmente: \"I love this company because......\"" := by
  refine ⟨rfl, rfl, rfl, ?_, by decide⟩
  rw [String.take_eq]
  show (txt.data.take 30).length ≤ 30
  exact List.length_take_le 30 txt.data

theorem C2_applyManualResponse_resolves_witness :
    (applyManualResponse exampleNeedsInputApp "hello").status = ApplicationStatus.applied ∧
    (applyManualResponse exampleNeedsInputApp "hello").questionToAnswer = some "" ∧
    (applyManualResponse exampleNeedsInputApp "hello").notes =
      some ("Respondido manualmente: \"" ++ "hello".take 30 ++ "...\"") ∧
    ("hello".take 30).length ≤ 30 ∧
    manualResponseNotes "I love this company because..." =
      "Respondido manualmente: \"I love this company because......\"" :=
  C2_applyManualResponse_resolves exampleNeedsInputApp "hello" rfl

/-- A record carries a question when the optional field holds a non-empty
string: JavaScript treats both `undefined` (absent field) and the empty
string written by resolution as falsy, i.e. as no pending question. -/
def carriesQuestion (app : JobApplication) : Bool :=
  !(app.questionToAnswer.getD "").isEmpty

/-- C5: for every record produced by a bot tick or mutated by the manual
resolution, the question is present exactly while the status is
`needs_input`: a record created as `needs_input` carries the fixed prompt,
a record created in any other status carries no question, and a resolved
record carries none (the field is overwritten with the empty string). -/
theorem C5_question_iff_needs_input (u : String) (rc rr rp r : ℚ) (now : Nat)
    (newId : String) (job : JobApplication)
    (hjob : simulateBotTick (some u) rc rr rp r now newId = some job) :
    (job.status = ApplicationStatus.needs_input →
      job.questionToAnswer = some tickPrompt) ∧
    (job.status ≠ ApplicationStatus.needs_input → job.questionToAnswer = none) ∧
    carriesQuestion job = (job.status == ApplicationStatus.needs_input) ∧
    (∀ app txt, carriesQuestion (applyManualResponse app txt) = false ∧
      (applyManualResponse app txt).status = ApplicationStatus.applied ∧
      (applyManualResponse app txt).questionToAnswer = some "") := by
  have hj : job = buildTickJob rc rr rp r now newId := by
    simpa [simulateBotTick] using hjob.symm
  subst hj
  refine ⟨?_, ?_, ?_, fun app txt => ⟨rfl, rfl, rfl⟩⟩
  · unfold buildTickJob tickStatus
    split_ifs <;> simp
  · unfold buildTickJob tickStatus
    split_ifs <;> simp
  · unfold carriesQuestion buildTickJob tickStatus
    split_ifs <;> simp <;> decide

theorem C5_question_iff_needs_input_witness :
    ((buildTickJob 0 0 0 (1/10) 0 "a2").status = ApplicationStatus.needs_input →
      (buildTickJob 0 0 0 (1/10) 0 "a2").questionToAnswer = some tickPrompt) ∧
    ((buildTickJob 0 0 0 (1/10) 0 "a2").status ≠ ApplicationStatus.needs_input →
      (buildTickJob 0 0 0 (1/10) 0 "a2").questionToAnswer = none) ∧
    carriesQuestion (buildTickJob 0 0 0 (1/10) 0 "a2") =
      ((buildTickJob 0 0 0 (1/10) 0 "a2").status == ApplicationStatus.needs_input) ∧
    (∀ app txt, carriesQuestion (applyManualResponse app txt) = false ∧
      (applyManualResponse app txt).status = ApplicationStatus.applied ∧
      (applyManualResponse app txt).questionToAnswer = some "") :=
  C5_question_iff_needs_input "user0" 0 0 0 (1/10) 0 "a2"
    (buildTickJob 0 0 0 (1/10) 0 "a2") rfl

/-- The scheduler-relevant component state: the `isBotRunning` flag, the
mutable interval handle `botIntervalRef.current`, the set of interval
timers currently scheduled in the JavaScript context (identified by the
numeric ids `setInterval` returns, allocated from `nextTimerId`), and the
number of application records the ticks have created so far. -/
structure BotState : Type where
  isBotRunning : Bool
  botIntervalRef : Option Nat
  activeTimers : List Nat
  nextTimerId : Nat
  records : Nat
deriving DecidableEq, Repr

/-- The component state right after mount: bot stopped, no interval handle,
no scheduled timer. -/
def initialBotState : BotState :=
  { isBotRunning := false
    botIntervalRef := none
    activeTimers := []
    nextTimerId := 0
    records := 0 }

/-- `if (botIntervalRef.current) clearInterval(botIntervalRef.current)`:
cancels the timer the handle points to; the handle itself is not nulled. -/
def clearBotInterval (s : BotState) : BotState :=
  match s.botIntervalRef with
  | none => s
  | some t => { s with activeTimers := s.activeTimers.erase t }

/-- `toggleBot`: when running, set the flag to false and cancel the
referenced interval; when stopped, set the flag to true and schedule a
fresh interval, storing its id in the handle. -/
def toggleBot (s : BotState) : BotState :=
  if s.isBotRunning then
    clearBotInterval { s with isBotRunning := false }
  else
    { s with
        isBotRunning := true
        botIntervalRef := some s.nextTimerId
        activeTimers := s.nextTimerId :: s.activeTimers
        nextTimerId := s.nextTimerId + 1 }

/-- The start operation of the scheduler contract: `toggleBot` reached in
its stopped state (the only state from which the code starts the bot; the
enclosing `if (isBotRunning)` guard makes a start request in the running
state perform no transition). -/
def startBot (s : BotState) : BotState :=
  if s.isBotRunning then s else toggleBot s

/-- The stop operation of the scheduler contract: `toggleBot` reached in
its running state; a stop request in the stopped state performs no
transition. -/
def stopBot (s : BotState) : BotState :=
  if s.isBotRunning then toggleBot s else s

/-- Scheduler invariant: when running, the handle references the single
scheduled timer; when stopped, no timer is scheduled. Holds at mount and
is preserved by `toggleBot` (proved below). -/
def BotInv (s : BotState) : Prop :=
  if s.isBotRunning then
    ∃ t, s.botIntervalRef = some t ∧ s.activeTimers = [t]
  else s.activeTimers = []

/-- One scheduled firing of timer `t`: the interval callback runs and
creates a record only if `t` is still scheduled; a cancelled timer never
fires. -/
def fireTimer (s : BotState) (t : Nat) : BotState :=
  if t ∈ s.activeTimers then { s with records := s.records + 1 } else s

/-- `handleLogout`: sets `isBotRunning` to false and calls
`window.location.reload()`, which tears down the JavaScript context and
with it every scheduled timer. -/
def handleLogout (s : BotState) : BotState :=
  { s with isBotRunning := false, activeTimers := [] }

/-- The unmount cleanup of the hosting component:
`if (botIntervalRef.current) clearInterval(botIntervalRef.current)`. -/
def unmountCleanup (s : BotState) : BotState := clearBotInterval s

theorem botInv_initial : BotInv initialBotState := by
  simp [BotInv, initialBotState]

theorem botInv_toggleBot (s : BotState) (h : BotInv s) : BotInv (toggleBot s) := by
  unfold BotInv toggleBot clearBotInterval at *
  by_cases hr : s.isBotRunning
  · simp only [hr, if_true] at h ⊢
    obtain ⟨t, href, htimers⟩ := h
    simp [href, htimers]
  · simp only [hr, if_false, Bool.false_eq_true] at h ⊢
    simp [h]

theorem botInv_startBot (s : BotState) (h : BotInv s) : BotInv (startBot s) := by
  unfold startBot
  split_ifs with hr
  · exact h
  · exact botInv_toggleBot s h

theorem stopBot_isBotRunning (s : BotState) : (stopBot s).isBotRunning = false := by
  unfold stopBot toggleBot clearBotInterval
  by_cases hr : s.isBotRunning
  · simp only [hr, if_true]
    cases s.botIntervalRef <;> simp
  · simp [hr]

theorem stopBot_activeTimers (s : BotState) (h : BotInv s) :
    (stopBot s).activeTimers = [] := by
  unfold BotInv at h
  unfold stopBot toggleBot clearBotInterval
  by_cases hr : s.isBotRunning
  · simp only [hr, if_true] at h ⊢
    obtain ⟨t, href, htimers⟩ := h
    simp [href, htimers]
  · simp only [hr, if_false, Bool.false_eq_true] at h ⊢
    exact h

theorem startBot_isBotRunning (s : BotState) : (startBot s).isBotRunning = true := by
  unfold startBot toggleBot
  by_cases hr : s.isBotRunning
  · simp [hr]
  · simp [hr]

theorem startBot_activeTimers_length (s : BotState) (h : BotInv s) :
    (startBot s).activeTimers.length = 1 := by
  unfold BotInv at h
  unfold startBot toggleBot
  by_cases hr : s.isBotRunning
  · simp only [hr, if_true] at h ⊢
    obtain ⟨t, _, htimers⟩ := h
    simp [htimers]
  · simp only [hr, if_false, Bool.false_eq_true] at h ⊢
    simp [h]

/-- C3: the bot scheduler is a two-state machine (`isBotRunning`) whose
start and stop requests are idempotent: a second start request changes
nothing and the running state holds exactly one scheduled interval timer
(no duplicate tick streams); a second stop request changes nothing; after
stop following start no timer remains scheduled; and the single-timer
invariant is preserved by the `toggleBot` transition. -/
theorem C3_scheduler_idempotent (s : BotState) (h : BotInv s) :
    startBot (startBot s) = startBot s ∧
    stopBot (stopBot s) = stopBot s ∧
    (startBot s).isBotRunning = true ∧
    (startBot s).activeTimers.length = 1 ∧
    (stopBot s).isBotRunning = false ∧
    (stopBot s).activeTimers = [] ∧
    (stopBot (startBot s)).activeTimers = [] ∧
    BotInv (toggleBot s) := by
  refine ⟨?_, ?_, startBot_isBotRunning s, startBot_activeTimers_length s h,
    stopBot_isBotRunning s, stopBot_activeTimers s h,
    stopBot_activeTimers (startBot s) (botInv_startBot s h), botInv_toggleBot s h⟩
  · unfold startBot
    by_cases hr : s.isBotRunning
    · simp [hr]
    · have h1 : (toggleBot s).isBotRunning = true := by
        unfold toggleBot
        simp [hr]
      simp [hr, h1]
  · unfold stopBot
    by_cases hr : s.isBotRunning
    · have h1 : (toggleBot s).isBotRunning = false := by
        unfold toggleBot clearBotInterval
        simp only [hr, if_true]
        cases s.botIntervalRef <;> simp
      simp [hr, h1]
    · simp [hr]

theorem C3_scheduler_idempotent_witness :
    startBot (startBot initialBotState) = startBot initialBotState ∧
    stopBot (stopBot initialBotState) = stopBot initialBotState ∧
    (startBot initialBotState).isBotRunning = true ∧
    (startBot initialBotState).activeTimers.length = 1 ∧
    (stopBot initialBotState).isBotRunning = false ∧
    (stopBot initialBotState).activeTimers = [] ∧
    (stopBot (startBot initialBotState)).activeTimers = [] ∧
    BotInv (toggleBot initialBotState) :=
  C3_scheduler_idempotent initialBotState botInv_initial

theorem fireTimer_of_no_timers (s : BotState) (h : s.activeTimers = []) (t : Nat) :
    fireTimer s t = s := by
  unfold fireTimer
  simp [h]

theorem foldl_fireTimer_of_no_timers (s : BotState) (h : s.activeTimers = []) :
    ∀ ts : List Nat, ts.foldl fireTimer s = s := by
  intro ts
  induction ts with
  | nil => rfl
  | cons t ts ih =>
    rw [List.foldl_cons, fireTimer_of_no_timers s h t, ih]

theorem unmountCleanup_activeTimers (s : BotState) (h : BotInv s) :
    (unmountCleanup s).activeTimers = [] := by
  unfold BotInv at h
  unfold unmountCleanup clearBotInterval
  by_cases hr : s.isBotRunning
  · simp only [hr, if_true] at h
    obtain ⟨t, href, htimers⟩ := h
    simp [href, htimers]
  · simp only [hr, if_false, Bool.false_eq_true] at h
    cases href : s.botIntervalRef <;> simp [h]

/-- C4: when the session ends through `handleLogout` (which stops the flag
and reloads the page, tearing down every scheduled timer) or the hosting
component unmounts (its cleanup cancels the referenced interval), no
scheduled timer survives, so any sequence of timer firings attempted
afterwards creates no application record. -/
theorem C4_no_ticks_after_teardown (s : BotState) (ts : List Nat) (h : BotInv s) :
    (handleLogout s).activeTimers = [] ∧
    (handleLogout s).isBotRunning = false ∧
    (ts.foldl fireTimer (handleLogout s)).records = s.records ∧
    (unmountCleanup s).activeTimers = [] ∧
    (ts.foldl fireTimer (unmountCleanup s)).records = s.records := by
  refine ⟨rfl, rfl, ?_, unmountCleanup_activeTimers s h, ?_⟩
  · rw [foldl_fireTimer_of_no_timers (handleLogout s) rfl ts]
    rfl
  · rw [foldl_fireTimer_of_no_timers (unmountCleanup s)
      (unmountCleanup_activeTimers s h) ts]
    unfold unmountCleanup clearBotInterval
    cases s.botIntervalRef <;> rfl

theorem C4_no_ticks_after_teardown_witness :
    (handleLogout (toggleBot initialBotState)).activeTimers = [] ∧
    (handleLogout (toggleBot initialBotState)).isBotRunning = false ∧
    (([0, 1, 2] : List Nat).foldl fireTimer
      (handleLogout (toggleBot initialBotState))).records =
      (toggleBot initialBotState).records ∧
    (unmountCleanup (toggleBot initialBotState)).activeTimers = [] ∧
    (([0, 1, 2] : List Nat).foldl fireTimer
      (unmountCleanup (toggleBot initialBotState))).records =
      (toggleBot initialBotState).records :=
  C4_no_ticks_after_teardown (toggleBot initialBotState) [0, 1, 2]
    (botInv_toggleBot initialBotState botInv_initial)

/-- The comparator passed to `apps.sort` in the applications snapshot
handler: `(a, b) => new Date(b.date).getTime() - new Date(a.date).getTime()`,
i.e. `a` sorts no later than `b` exactly when `b.date ≤ a.date`
(descending by date). -/
def appLe (a b : JobApplication) : Bool := decide (b.date ≤ a.date)

/-- The applications snapshot handler: maps the delivered documents and
sorts them with the date-descending comparator. JavaScript
`Array.prototype.sort` is required to be stable, modelled by the stable
`List.mergeSort`. -/
def observeApplications (docs : List JobApplication) : List JobApplication :=
  docs.mergeSort appLe

theorem appLe_trans (a b c : JobApplication) (hab : appLe a b) (hbc : appLe b c) :
    appLe a c := by
  simp only [appLe, decide_eq_true_eq] at *
  omega

theorem appLe_total (a b : JobApplication) : appLe a b || appLe b a := by
  simp only [appLe, Bool.or_eq_true, decide_eq_true_eq]
  omega

/-- C6: for every list of delivered documents, in any arrival order, the
displayed list is a permutation of the input sorted by the `date` field
descending, and the records holding any fixed date keep their relative
order (stability). -/
theorem C6_applications_sorted_desc (docs : List JobApplication) :
    (observeApplications docs).Pairwise (fun a b => b.date ≤ a.date) ∧
    (observeApplications docs).Perm docs ∧
    ∀ d : Nat, (observeApplications docs).filter (fun a => a.date == d) =
      docs.filter (fun a => a.date == d) := by
  refine ⟨?_, List.mergeSort_perm docs appLe, ?_⟩
  · have h := List.sorted_mergeSort appLe_trans appLe_total docs
    exact h.imp (fun hab => by simpa [appLe] using hab)
  · intro d
    set p : JobApplication → Bool := fun a => a.date == d with hp
    have hmem : ∀ x ∈ docs.filter p, x.date = d := by
      intro x hx
      have := List.of_mem_filter hx
      simpa [hp] using this
    have hpair : (docs.filter p).Pairwise (fun a b => appLe a b = true) := by
      apply List.pairwise_of_forall_mem_list
      intro a ha b hb
      simp [appLe, hmem a ha, hmem b hb]
    have hsub : List.Sublist (docs.filter p) (observeApplications docs) :=
      List.sublist_mergeSort appLe_trans appLe_total hpair (List.filter_sublist docs)
    have hsubf : List.Sublist ((docs.filter p).filter p)
        ((observeApplications docs).filter p) :=
      hsub.filter p
    rw [List.filter_filter] at hsubf
    have hself : docs.filter (fun a => p a && p a) = docs.filter p := by
      simp
    rw [hself] at hsubf
    have hperm : ((observeApplications docs).filter p).Perm (docs.filter p) :=
      (List.mergeSort_perm docs appLe).filter p
    exact (hsubf.eq_of_length hperm.length_eq.symm).symm

/-- The session-relevant component state: the Firebase user (and, in
`identitiesCreated`, how many anonymous identities `signInAnonymously` has
minted so far), the explicit entry gate `hasEntered`, and the
`loginLoading` flag. -/
structure SessionState : Type where
  currentUser : Option String
  hasEntered : Bool
  loginLoading : Bool
  identitiesCreated : Nat
deriving DecidableEq, Repr

/-- `handleLogin`: sets the loading flag, calls `signInAnonymously` only
when `auth.currentUser` is absent (minting a fresh identity), then after
the 800 ms timeout clears the flag and marks the session as entered. -/
def handleLogin (fresh : String) (s : SessionState) : SessionState :=
  let s1 : SessionState := { s with loginLoading := true }
  let s2 : SessionState :=
    match s1.currentUser with
    | some _ => s1
    | none => { s1 with
        currentUser := some fresh
        identitiesCreated := s1.identitiesCreated + 1 }
  { s2 with loginLoading := false, hasEntered := true }

/-- `showLoginScreen = !user || !hasEntered`: the entry screen is shown
unless an identity is set and the user has explicitly entered. -/
def showLoginScreen (s : SessionState) : Bool :=
  s.currentUser.isNone || !s.hasEntered

/-- C7: `handleLogin` is idempotent with respect to identity creation:
called with an identity already established it keeps that identity and
mints no second one (and a repeated call never mints again, since the
first call always leaves an identity in place); on success it sets
`hasEntered`, so the entry screen gives way to the authenticated shell. -/
theorem C7_handleLogin_idempotent (s : SessionState) (u fresh fresh2 : String)
    (h : s.currentUser = some u) :
    (handleLogin fresh s).currentUser = some u ∧
    (handleLogin fresh s).identitiesCreated = s.identitiesCreated ∧
    (handleLogin fresh s).hasEntered = true ∧
    showLoginScreen (handleLogin fresh s) = false ∧
    handleLogin fresh2 (handleLogin fresh s) = handleLogin fresh s := by
  unfold handleLogin showLoginScreen
  simp [h]

theorem C7_handleLogin_idempotent_witness :
    (handleLogin "f" ⟨some "u0", false, false, 1⟩).currentUser = some "u0" ∧
    (handleLogin "f" ⟨some "u0", false, false, 1⟩).identitiesCreated =
      (⟨some "u0", false, false, 1⟩ : SessionState).identitiesCreated ∧
    (handleLogin "f" ⟨some "u0", false, false, 1⟩).hasEntered = true ∧
    showLoginScreen (handleLogin "f" ⟨some "u0", false, false, 1⟩) = false ∧
    handleLogin "g" (handleLogin "f" ⟨some "u0", false, false, 1⟩) =
      handleLogin "f" ⟨some "u0", false, false, 1⟩ :=
  C7_handleLogin_idempotent ⟨some "u0", false, false, 1⟩ "u0" "f" "g" rfl

/-- The default profile the profile snapshot handler synthesizes when the
stored document does not exist. -/
def defaultProfile : UserProfile :=
  { fullName := "Novo Usuário"
    email := ""
    linkedinUrl := ""
    bio := ""
    experience := ""
    skills := "" }

/-- The profile snapshot handler: a snapshot either carries the stored
document or reports that none exists; the handler returns the profile to
display together with the list of store writes it performs (it performs
none: the default is surfaced, never persisted). -/
def onProfileSnapshot (docSnap : Option UserProfile) :
    UserProfile × List UserProfile :=
  match docSnap with
  | some p => (p, [])
  | none => (defaultProfile, [])

/-- C8: when no stored profile document exists, the snapshot handler
yields exactly the default profile with fullName `Novo Usuário` and all
other fields empty, and performs no write to the store. -/
theorem C8_default_profile_not_persisted :
    (onProfileSnapshot none).1 = defaultProfile ∧
    (onProfileSnapshot none).1.fullName = "Novo Usuário" ∧
    (onProfileSnapshot none).1.email = "" ∧
    (onProfileSnapshot none).1.linkedinUrl = "" ∧
    (onProfileSnapshot none).1.bio = "" ∧
    (onProfileSnapshot none).1.experience = "" ∧
    (onProfileSnapshot none).1.skills = "" ∧
    (onProfileSnapshot none).2 = [] :=
  ⟨rfl, rfl, rfl, rfl, rfl, rfl, rfl, rfl⟩

/-- Observable effects of one handler invocation: how many store writes it
attempts, which blocking notifications (`alert`) it raises, and how many
console error logs it emits. -/
structure OpEffects : Type where
  writesAttempted : Nat
  alerts : List String
  logs : Nat
deriving DecidableEq, Repr

/-- `saveProfile`: with an identity, attempts one `setDoc`; on success it
alerts the success message, on failure it logs the error and alerts the
failure message. It never touches the displayed profile state (re-derived
from the subscription). Without an identity it returns immediately. -/
def saveProfile (user : Option String) (displayed : UserProfile)
    (storeOk : Bool) : UserProfile × OpEffects :=
  match user with
  | none => (displayed, ⟨0, [], 0⟩)
  | some _ =>
    if storeOk then
      (displayed, ⟨1, ["Perfil salvo com sucesso na nuvem!"], 0⟩)
    else
      (displayed, ⟨1, ["Erro ao salvar perfil. Verifique as chaves do Firebase."], 1⟩)

/-- `handleManualResponse` acting on its target document: with an identity,
attempts one `updateDoc`; on success the document receives the
manual-response update, on failure the error is logged only and the
document is unchanged. Without an identity it returns immediately. -/
def handleManualResponse (user : Option String) (app : JobApplication)
    (responseText : String) (storeOk : Bool) : JobApplication × OpEffects :=
  match user with
  | none => (app, ⟨0, [], 0⟩)
  | some _ =>
    if storeOk then (applyManualResponse app responseText, ⟨1, [], 0⟩)
    else (app, ⟨1, [], 1⟩)

/-- The persistence step of one bot tick: with an identity, attempts one
`addDoc` of the generated document; on success the collection grows by
that document, on failure the error is logged only (silent skip, the next
tick simply tries again). Without an identity the callback returns before
generating anything. -/
def tickPersist (user : Option String) (store : List JobApplication)
    (rc rr rp r : ℚ) (now : Nat) (newId : String) (storeOk : Bool) :
    List JobApplication × OpEffects :=
  match user with
  | none => (store, ⟨0, [], 0⟩)
  | some _ =>
    if storeOk then (store ++ [buildTickJob rc rr rp r now newId], ⟨1, [], 0⟩)
    else (store, ⟨1, [], 1⟩)

/-- C9: store write failures follow the fixed taxonomy: a failed
`saveProfile` raises the blocking error notification and leaves the
displayed profile intact; failed tick persistence and failed manual
resolution are logged only, raise no notification and leave their data
unchanged; and no operation ever attempts more than one write (no retry):
every failure is terminal for that one operation. -/
theorem C9_write_failure_taxonomy (u : String) (p : UserProfile)
    (app : JobApplication) (txt : String) (store : List JobApplication)
    (rc rr rp r : ℚ) (now : Nat) (newId : String) :
    (saveProfile (some u) p false).2.alerts =
      ["Erro ao salvar perfil. Verifique as chaves do Firebase."] ∧
    (saveProfile (some u) p false).2.logs = 1 ∧
    (saveProfile (some u) p false).1 = p ∧
    (handleManualResponse (some u) app txt false).2.alerts = [] ∧
    (handleManualResponse (some u) app txt false).2.logs = 1 ∧
    (handleManualResponse (some u) app txt false).1 = app ∧
    (tickPersist (some u) store rc rr rp r now newId false).2.alerts = [] ∧
    (tickPersist (some u) store rc rr rp r now newId false).2.logs = 1 ∧
    (tickPersist (some u) store rc rr rp r now newId false).1 = store ∧
    (∀ user ok, (saveProfile user p ok).2.writesAttempted ≤ 1) ∧
    (∀ user ok, (handleManualResponse user app txt ok).2.writesAttempted ≤ 1) ∧
    (∀ user ok, (tickPersist user store rc rr rp r now newId ok).2.writesAttempted ≤ 1) := by
  refine ⟨rfl, rfl, rfl, rfl, rfl, rfl, rfl, rfl, rfl, ?_, ?_, ?_⟩
  · intro user ok
    cases user <;> unfold saveProfile <;> [skip; split_ifs] <;> simp
  · intro user ok
    cases user <;> unfold handleManualResponse <;> [skip; split_ifs] <;> simp
  · intro user ok
    cases user <;> unfold tickPersist <;> [skip; split_ifs] <;> simp

/-- C10: with no identity established, every mutating operation returns
immediately as a no-op: no write is attempted, no notification or log is
produced, and the data it would have touched is unchanged; the tick body
creates no document at all. -/
theorem C10_no_identity_noop (p : UserProfile) (app : JobApplication)
    (txt : String) (store : List JobApplication) (rc rr rp r : ℚ) (now : Nat)
    (newId : String) (storeOk : Bool) :
    saveProfile none p storeOk = (p, ⟨0, [], 0⟩) ∧
    handleManualResponse none app txt storeOk = (app, ⟨0, [], 0⟩) ∧
    tickPersist none store rc rr rp r now newId storeOk = (store, ⟨0, [], 0⟩) ∧
    simulateBotTick none rc rr rp r now newId = none :=
  ⟨rfl, rfl, rfl, rfl⟩
